import Mathlib

/-!
Verification development for the Dockline repository.

The repository has two Python scripts:

* `create_ligands.py` — parses a SMILES string with RDKit, adds hydrogens,
  embeds a 3D conformer (ETKDGv3, random seed 42, with a default-parameter
  fallback attempt), runs MMFF optimization under a try/except, and writes
  a single-molecule SDF file.
* `prepare_5ht_receptors.py` — downloads raw PDB files over HTTP unless
  already present, parses them with Biopython, filters to one chain and to
  standard residues (`ChainSelect`), and writes the cleaned structure.

External-library behaviour (RDKit, Biopython, urllib) is modelled as an
environment of abstract functions; the scripts' own control flow, file
writes, branch structure and print statements are embedded faithfully.
The filesystem is an explicit association store from paths to contents.
-/

/-! ## A small path-indexed store (the filesystem) -/

/-- A filesystem fragment: an association list from paths to file contents;
the most recent binding for a path wins. -/
def Store (α : Type) : Type := List (String × α)

instance (α : Type) : Inhabited (Store α) := ⟨([] : List (String × α))⟩

/-- Read the file at path `p`, if present. -/
def Store.get {α : Type} (fs : Store α) (p : String) : Option α :=
  (List.find? (fun e => e.1 == p) fs).map (fun e => e.2)

/-- Create or overwrite the file at path `p`. -/
def Store.set {α : Type} (fs : Store α) (p : String) (v : α) : Store α :=
  (p, v) :: List.filter (fun e => e.1 != p) fs

instance (α : Type) [DecidableEq α] : DecidableEq (Store α) :=
  fun a b => (inferInstanceAs (DecidableEq (List (String × α)))) a b

/-! ## Ligand script (`create_ligands.py`): data model -/

/-- An RDKit molecule, abstracted: an opaque payload identifying the
chemical graph, the current 3D conformer (if any), and its property map
(`SetProp`/`GetProp`). -/
structure Mol where
  payload : String
  conformer : Option Nat
  props : List (String × String)
deriving DecidableEq, Repr

/-- Python `mol.SetProp(key, value)`. -/
def Mol.setProp (m : Mol) (k v : String) : Mol :=
  { m with props := (k, v) :: List.filter (fun e => e.1 != k) m.props }

/-- Python `mol.GetProp(key)` (as an `Option`). -/
def Mol.getProp (m : Mol) (k : String) : Option String :=
  (List.find? (fun e => e.1 == k) m.props).map (fun e => e.2)

/-- Parameters for RDKit conformer embedding; the script only ever touches
`randomSeed`. -/
structure ETKDGParams where
  randomSeed : Int
deriving DecidableEq, Repr

/-- Defaults `AllChem.ETKDGv3()`: default parameters; the default random seed is -1
(non-deterministic). -/
def ETKDGv3 : ETKDGParams := { randomSeed := -1 }

/-- The parameters actually used for the first embedding attempt:
`params = AllChem.ETKDGv3(); params.randomSeed = 42`. -/
def params42 : ETKDGParams := { ETKDGv3 with randomSeed := 42 }

/-- The external chemistry library (RDKit), abstracted. `embedMolecule`
takes, besides the molecule and parameters, the ambient random state of the
process (`Nat`), since embedding with a negative seed draws on it; it
returns the conformer id (`-1` on failure) and the updated molecule.
`mmffOptimize` may raise (modelled as `Except`). `writeFails` says whether
writing to a path raises an I/O error. -/
structure ChemEnv where
  molFromSmiles : String → Option Mol
  addHs : Mol → Mol
  embedMolecule : Mol → ETKDGParams → Nat → Int × Mol
  mmffOptimize : Mol → Except String Mol
  writeFails : String → Bool

/-- RDKit's documented behaviour: with a non-negative random seed the
embedding does not depend on the ambient random state. -/
def SeedDeterministic (env : ChemEnv) : Prop :=
  ∀ m p r r', 0 ≤ p.randomSeed → env.embedMolecule m p r = env.embedMolecule m p r'

/-- SDF files hold a list of molecules (one `writer.write` call appends one). -/
abbrev SDFStore := Store (List Mol)

/-- Result of one `generate_3d_sdf` call: the Python return value (`.ok b`)
or an uncaught exception (`.error e`), the filesystem afterwards, the lines
printed, and the trace of embedding attempts (the parameters each was
called with). -/
structure GenOut where
  ret : Except String Bool
  fs : SDFStore
  log : List String
  embeds : List ETKDGParams

/-- Lines 31–36 of `create_ligands.py`: first embedding attempt with seed
42; if it returns -1, print a warning and retry once with default
parameters, discarding that attempt's return code. Returns the molecule
the subsequent code operates on, the warnings printed, and the attempt
trace. -/
def embedStage (env : ChemEnv) (rand : Nat) (name : String) (mol : Mol) :
    Mol × List String × List ETKDGParams :=
  let er := env.embedMolecule mol params42 rand
  if er.1 = -1 then
    ((env.embedMolecule er.2 ETKDGv3 rand).2,
     ["  Warning: Could not embed " ++ name ++ ", trying with random coords"],
     [params42, ETKDGv3])
  else
    (er.2, [], [params42])

/-- Lines 38–41: `try: AllChem.MMFFOptimizeMolecule(mol, maxIters=500)
except: print warning` — on failure the un-optimized molecule is kept. -/
def optStage (env : ChemEnv) (name : String) (mol : Mol) : Mol × List String :=
  match env.mmffOptimize mol with
  | .ok m => (m, [])
  | .error _ => (mol, ["  Warning: MMFF optimization failed for " ++ name])

/-- Lines 43–49: set `_Name`, open an `SDWriter` on `output_path`, write the
single molecule, close, return `True`. The write is not inside a try block:
an I/O failure raises out of the function. -/
def writeStage (env : ChemEnv) (fs : SDFStore) (name output_path : String)
    (mol : Mol) (log : List String) (embeds : List ETKDGParams) : GenOut :=
  let molF := mol.setProp "_Name" name
  if env.writeFails output_path then
    { ret := .error ("write failure: " ++ output_path), fs := fs,
      log := log, embeds := embeds }
  else
    { ret := .ok true, fs := fs.set output_path [molF],
      log := log, embeds := embeds }

/-- Function `generate_3d_sdf(smiles, name, output_path)` (lines 22–49 of
`create_ligands.py`). -/
def generate_3d_sdf (env : ChemEnv) (rand : Nat) (fs : SDFStore)
    (smiles name output_path : String) : GenOut :=
  match env.molFromSmiles smiles with
  | none =>
      { ret := .ok false, fs := fs,
        log := ["  Error: Invalid SMILES for " ++ name], embeds := [] }
  | some mol0 =>
      let mol := env.addHs mol0
      let es := embedStage env rand name mol
      let os := optStage env name es.1
      writeStage env fs name output_path os.1 (es.2.1 ++ os.2) es.2.2

/-- The molecule that ends up in the output file when parsing succeeded and
the write did not raise. -/
def writtenMol (env : ChemEnv) (rand : Nat) (name : String) (mol0 : Mol) : Mol :=
  (optStage env name (embedStage env rand name (env.addHs mol0)).1).1.setProp "_Name" name

/-- One ligand record of the static `LIGANDS` table. -/
structure LigandInfo where
  smiles : String
  color : String
deriving DecidableEq, Repr

/-- The biotin record of the `LIGANDS` table. -/
def biotinInfo : LigandInfo :=
  { smiles := "C1[C@H]2[C@@H]([C@@H](S1)CCCCC(=O)O)NC(=O)N2", color := "#ec4899" }

/-- The serotonin record of the `LIGANDS` table. -/
def serotoninInfo : LigandInfo :=
  { smiles := "NCCc1c[nH]c2ccc(O)cc12", color := "#8b5cf6" }

/-- The static ligand table of `create_ligands.py`. -/
def LIGANDS : List (String × LigandInfo) :=
  [("biotin", biotinInfo), ("serotonin", serotoninInfo)]

/-- State of the ligand script's main loop: `ret = some e` means an uncaught
exception `e` escaped and the loop is aborted; `attempts` records the table
entries the loop started processing. -/
structure LigState where
  ret : Option String
  fs : SDFStore
  log : List String
  attempts : List String

/-- One iteration of the `for name, info in LIGANDS.items()` loop
(lines 55–65 of `create_ligands.py`). An exception raised by
`generate_3d_sdf` is not caught and aborts the remaining iterations. -/
def processLigand (env : ChemEnv) (rand : Nat) (st : LigState)
    (entry : String × LigandInfo) : LigState :=
  match st.ret with
  | some _ => st
  | none =>
    let name := entry.1
    let output_path := name ++ ".sdf"
    let st0 := { st with attempts := st.attempts ++ [name],
                         log := st.log ++ ["  SMILES: " ++ entry.2.smiles] }
    let g := generate_3d_sdf env rand st0.fs entry.2.smiles name output_path
    match g.ret with
    | .error e => { st0 with ret := some e, fs := g.fs, log := st0.log ++ g.log }
    | .ok true =>
        { st0 with fs := g.fs, log := st0.log ++ g.log ++ ["  Saved: " ++ output_path] }
    | .ok false =>
        { st0 with fs := g.fs, log := st0.log ++ g.log ++ ["  FAILED to generate " ++ name] }

/-- The initial state of the ligand script's loop. -/
def initLigState (fs : SDFStore) : LigState :=
  { ret := none, fs := fs, log := [], attempts := [] }

/-- The whole `main()` of `create_ligands.py`. -/
def ligandMain (env : ChemEnv) (rand : Nat) (fs : SDFStore) : LigState :=
  List.foldl (processLigand env rand) (initLigState fs) LIGANDS

/-! ## Receptor script (`prepare_5ht_receptors.py`): data model -/

/-- A Biopython residue: `residue.id[0]` is the hetfield (`" "` for a
standard residue, `"W"` for water, `"H_..."` for heteroatoms), plus its
atoms (abstract names). -/
structure Residue where
  hetfield : String
  resname : String
  atoms : List String
deriving DecidableEq, Repr

/-- A Biopython chain: its id letter and its residues. -/
structure Chain where
  id : String
  residues : List Residue
deriving DecidableEq, Repr

/-- A parsed structure, flattened over the (always accepted) model level:
its chains. -/
structure PDBStructure where
  chains : List Chain
deriving DecidableEq, Repr

/-- Class `ChainSelect` (lines 47–58 of `prepare_5ht_receptors.py`). -/
structure ChainSelect where
  chain_id : String
deriving DecidableEq, Repr

/-- Method `accept_chain`: only the specified chain. -/
def ChainSelect.accept_chain (s : ChainSelect) (c : Chain) : Bool :=
  c.id == s.chain_id

/-- Method `accept_residue`: standard residues only (hetfield is a blank). -/
def ChainSelect.accept_residue (_s : ChainSelect) (r : Residue) : Bool :=
  r.hetfield == " "

/-- Biopython `PDBIO.save(path, select)`: keep the chains accepted by `accept_chain`
and, inside them, the residues accepted by `accept_residue`
(`accept_model` and `accept_atom` are not overridden and accept
everything). -/
def pdbioSave (st : PDBStructure) (sel : ChainSelect) : PDBStructure :=
  { chains :=
      (List.filter (fun c => sel.accept_chain c) st.chains).map
        (fun c => { c with residues := List.filter (fun r => sel.accept_residue r) c.residues }) }

/-- A file handled by the receptor script: raw downloaded text, or a
structure serialized by `PDBIO` (modelled at the structure level). -/
inductive RFile
  | text (s : String)
  | struct (st : PDBStructure)
deriving DecidableEq, Repr

abbrev RStore := Store RFile

/-- The external world of the receptor script: `download pdb_id` is the
HTTP fetch (`none` = any urllib failure, in which case `urlretrieve`
leaves no file), `parsePDB` is Biopython's parser (`Except` for the raised
exception), and `saveFails` says whether `PDBIO.save` raises an I/O error
on a path. -/
structure BioEnv where
  download : String → Option String
  parsePDB : RFile → Except String PDBStructure
  saveFails : String → Bool

/-- Function `download_pdb(pdb_id, output_path)` (lines 61–69): on success the file
is written and `True` returned; on failure an error is printed and `False`
returned. Returns (return value, filesystem, printed lines). -/
def download_pdb (env : BioEnv) (fs : RStore) (pdb_id output_path : String) :
    Bool × RStore × List String :=
  match env.download pdb_id with
  | some content => (true, fs.set output_path (.text content), [])
  | none => (false, fs, ["  Error downloading " ++ pdb_id])

/-- Result of one `clean_pdb` call: the Python return value (`.ok b`) or an
uncaught exception from `io.save` (`.error e`), plus filesystem and lines
printed. -/
structure CleanOut where
  ret : Except String Bool
  fs : RStore
  log : List String

/-- Function `clean_pdb(input_path, output_path, chain_id)` (lines 72–84). Parsing
(including a missing input file) is inside the try block and yields
`False`; `io.save` is outside it, so a save failure raises. -/
def clean_pdb (env : BioEnv) (fs : RStore) (input_path output_path chain_id : String) :
    CleanOut :=
  match fs.get input_path with
  | none =>
      { ret := .ok false, fs := fs,
        log := ["  Error parsing PDB: no such file " ++ input_path] }
  | some f =>
    match env.parsePDB f with
    | .error e =>
        { ret := .ok false, fs := fs, log := ["  Error parsing PDB: " ++ e] }
    | .ok st =>
        if env.saveFails output_path then
          { ret := .error ("save failure: " ++ output_path), fs := fs, log := [] }
        else
          { ret := .ok true,
            fs := fs.set output_path (.struct (pdbioSave st { chain_id := chain_id })),
            log := [] }

/-- One receptor record of the static `RECEPTORS` table. -/
structure ReceptorInfo where
  pdb_id : String
  chain : String
  label : String
  ligand : String
  color : String
deriving DecidableEq, Repr

/-- The 5-HT1A record of the `RECEPTORS` table. -/
def rec5HT1A : ReceptorInfo :=
  { pdb_id := "7E2X", chain := "R", label := "5-HT1A Receptor (7E2X)",
    ligand := "serotonin", color := "#8b5cf6" }

/-- The 5-HT2A record of the `RECEPTORS` table. -/
def rec5HT2A : ReceptorInfo :=
  { pdb_id := "6WHA", chain := "A", label := "5-HT2A Receptor (6WHA)",
    ligand := "serotonin", color := "#8b5cf6" }

/-- The 5-HT2B record of the `RECEPTORS` table. -/
def rec5HT2B : ReceptorInfo :=
  { pdb_id := "4IB4", chain := "A", label := "5-HT2B Receptor (4IB4)",
    ligand := "serotonin", color := "#8b5cf6" }

/-- The static receptor table of `prepare_5ht_receptors.py`. -/
def RECEPTORS : List (String × ReceptorInfo) :=
  [("serotonin_5HT1A", rec5HT1A),
   ("serotonin_5HT2A", rec5HT2A),
   ("serotonin_5HT2B", rec5HT2B)]

/-- Path `os.path.join(RAW_DIR, pdb_id + ".pdb")`. -/
def rawPath (pdb_id : String) : String := "pdb_raw/" ++ pdb_id ++ ".pdb"

/-- Path `os.path.join(CLEAN_DIR, name + "_clean.pdb")`. -/
def cleanPath (name : String) : String := "pdb_clean/" ++ name ++ "_clean.pdb"

/-- State of the receptor script's main loop: `ret = some e` means an
uncaught exception aborted the loop; `fetches` records every network fetch
issued (by pdb id); `cleans` records every `clean_pdb` call attempted
(input path, output path, chain); `attempts` the entries started. -/
structure RecState where
  ret : Option String
  fs : RStore
  fetches : List String
  cleans : List (String × String × String)
  attempts : List String
  log : List String

/-- The cleaning step of one loop iteration (lines 113–120): call
`clean_pdb`; an exception from it is not caught and aborts the loop. -/
def doClean (env : BioEnv) (st : RecState) (name : String) (info : ReceptorInfo) :
    RecState :=
  let raw_path := rawPath info.pdb_id
  let clean_path := cleanPath name
  let st1 := { st with cleans := st.cleans ++ [(raw_path, clean_path, info.chain)] }
  let c := clean_pdb env st1.fs raw_path clean_path info.chain
  match c.ret with
  | .error e => { st1 with ret := some e, fs := c.fs, log := st1.log ++ c.log }
  | .ok true =>
      { st1 with fs := c.fs, log := st1.log ++ c.log ++ ["  Saved: " ++ clean_path] }
  | .ok false =>
      { st1 with fs := c.fs, log := st1.log ++ c.log ++ ["  FAILED to clean " ++ name] }

/-- One iteration of the `for name, info in RECEPTORS.items()` loop
(lines 95–120): download the raw file unless it already exists
(`os.path.exists`); on download failure `continue`; otherwise clean. -/
def processReceptor (env : BioEnv) (st : RecState) (entry : String × ReceptorInfo) :
    RecState :=
  match st.ret with
  | some _ => st
  | none =>
    let name := entry.1
    let info := entry.2
    let st0 := { st with attempts := st.attempts ++ [name] }
    let raw_path := rawPath info.pdb_id
    if (st0.fs.get raw_path).isNone then
      let d := download_pdb env st0.fs info.pdb_id raw_path
      let st1 := { st0 with fs := d.2.1, fetches := st0.fetches ++ [info.pdb_id],
                            log := st0.log ++ ["  Downloading " ++ info.pdb_id ++ "..."] ++ d.2.2 }
      if d.1 then doClean env st1 name info else st1
    else
      doClean env
        { st0 with log := st0.log ++ ["  Already downloaded: " ++ info.pdb_id ++ ".pdb"] }
        name info

/-- The initial state of the receptor script's loop. -/
def initRecState (fs : RStore) : RecState :=
  { ret := none, fs := fs, fetches := [], cleans := [], attempts := [], log := [] }

/-- The whole `main()` of `prepare_5ht_receptors.py`. -/
def receptorMain (env : BioEnv) (fs : RStore) : RecState :=
  List.foldl (processReceptor env) (initRecState fs) RECEPTORS

/-! ## Concrete instantiations used to exercise the theorems -/

/-- A bare molecule as produced by parsing the given SMILES. -/
def molOf (s : String) : Mol := { payload := s, conformer := none, props := [] }

/-- A chemistry environment in which every library call succeeds. -/
def envHappy : ChemEnv :=
  { molFromSmiles := fun s => some (molOf s),
    addHs := fun m => { m with payload := m.payload ++ "+H" },
    embedMolecule := fun m _ _ => (0, { m with conformer := some 7 }),
    mmffOptimize := fun m => .ok m,
    writeFails := fun _ => false }

/-- A chemistry environment in which SMILES parsing always fails. -/
def envParseFail : ChemEnv := { envHappy with molFromSmiles := fun _ => none }

/-- A chemistry environment in which every file write raises. -/
def envWriteFail : ChemEnv := { envHappy with writeFails := fun _ => true }

/-- A chemistry environment in which MMFF optimization always raises. -/
def envOptFail : ChemEnv :=
  { envHappy with mmffOptimize := fun _ => .error "force field setup failed" }

/-- A chemistry environment in which the seeded first embedding attempt
fails (returns -1) and the default-parameter fallback succeeds, drawing on
the ambient random state. -/
def envEmbedFallback : ChemEnv :=
  { envHappy with embedMolecule := fun m p r =>
      if p.randomSeed = 42 then (-1, m) else (0, { m with conformer := some r }) }

/-- A seed-deterministic chemistry environment in which every seeded
embedding attempt fails and the unseeded fallback depends on the ambient
random state. -/
def envSeedCex : ChemEnv :=
  { envHappy with embedMolecule := fun m p r =>
      if 0 ≤ p.randomSeed then (-1, m) else (0, { m with conformer := some r }) }

/-- A standard residue (blank hetfield). -/
def resStd : Residue := { hetfield := " ", resname := "ALA", atoms := ["N", "CA", "C"] }

/-- A water residue. -/
def resWater : Residue := { hetfield := "W", resname := "HOH", atoms := ["O"] }

/-- A heteroatom (ligand) residue. -/
def resHet : Residue := { hetfield := "H_SRO", resname := "SRO", atoms := ["C1"] }

/-- A sample parsed structure: chain A with standard, water and heteroatom
residues, and a second chain B. -/
def stSample : PDBStructure :=
  { chains := [{ id := "A", residues := [resStd, resWater, resHet] },
               { id := "B", residues := [resStd] }] }

/-- A receptor-script environment in which every library call succeeds. -/
def envBioOk : BioEnv :=
  { download := fun _ => some "RAW PDB TEXT",
    parsePDB := fun _ => .ok stSample,
    saveFails := fun _ => false }

/-- A receptor-script environment in which every download fails. -/
def envBioNoDl : BioEnv := { envBioOk with download := fun _ => none }

/-- A filesystem that already holds the raw file for 7E2X. -/
def fsSample : RStore := [(rawPath "7E2X", RFile.text "cached raw 7E2X")]

/-- Claim C9 formalised as stated: for every seed-deterministic chemistry
environment, two runs of the generator that differ only in the ambient
random state write the same file. -/
def C9claim : Prop :=
  ∀ env : ChemEnv, SeedDeterministic env →
    ∀ (rand rand' : Nat) (fs : SDFStore) (smiles name output_path : String),
      (generate_3d_sdf env rand fs smiles name output_path).fs
        = (generate_3d_sdf env rand' fs smiles name output_path).fs

/-! ## Store lemmas -/

theorem Store.get_set_self {α : Type} (fs : Store α) (p : String) (v : α) :
    (fs.set p v).get p = some v := by
  simp [Store.get, Store.set, List.find?]

theorem Store.get_set_ne {α : Type} (fs : Store α) (p q : String) (v : α)
    (h : q ≠ p) : (fs.set p v).get q = fs.get q := by
  have hpq : (p == q) = false := by
    simp [beq_eq_false_iff_ne]
    exact fun hc => h hc.symm
  have hfil : List.find? (fun e : String × α => e.1 == q)
      (List.filter (fun e : String × α => e.1 != p) fs)
      = List.find? (fun e : String × α => e.1 == q) fs := by
    induction fs with
    | nil => rfl
    | cons a l ih =>
      by_cases ha : a.1 = p
      · have h1 : (a.1 != p) = false := by simp [ha]
        have h2 : (a.1 == q) = false := by
          simp [beq_eq_false_iff_ne, ha]
          exact fun hc => h hc.symm
        simp [List.filter_cons, h1, List.find?, h2, ih]
      · have h1 : (a.1 != p) = true := by simp [ha]
        by_cases hb : a.1 = q
        · have h2 : (a.1 == q) = true := by simp [hb]
          simp [List.filter_cons, h1, List.find?, h2]
        · have h2 : (a.1 == q) = false := by simp [hb]
          simp [List.filter_cons, h1, List.find?, h2, ih]
  simp [Store.get, Store.set, List.find?, hpq, hfil]

theorem Store.get_set_isSome {α : Type} (fs : Store α) (p q : String) (v : α)
    (h : (fs.get q).isSome = true) : ((fs.set p v).get q).isSome = true := by
  by_cases hq : q = p
  · subst hq; rw [Store.get_set_self]; rfl
  · rw [Store.get_set_ne fs p q v hq]; exact h

theorem Mol.getProp_setProp (m : Mol) (k v : String) :
    (m.setProp k v).getProp k = some v := by
  simp [Mol.setProp, Mol.getProp, List.find?]

/-! ## Helper lemmas: ligand side -/

theorem gen_parse_none (env : ChemEnv) (rand : Nat) (fs : SDFStore)
    (smiles name output_path : String)
    (h : env.molFromSmiles smiles = none) :
    generate_3d_sdf env rand fs smiles name output_path =
      { ret := .ok false, fs := fs,
        log := ["  Error: Invalid SMILES for " ++ name], embeds := [] } := by
  simp [generate_3d_sdf, h]

theorem gen_parse_some (env : ChemEnv) (rand : Nat) (fs : SDFStore)
    (smiles name output_path : String) (m : Mol)
    (h : env.molFromSmiles smiles = some m) :
    generate_3d_sdf env rand fs smiles name output_path =
      writeStage env fs name output_path
        (optStage env name (embedStage env rand name (env.addHs m)).1).1
        ((embedStage env rand name (env.addHs m)).2.1
          ++ (optStage env name (embedStage env rand name (env.addHs m)).1).2)
        (embedStage env rand name (env.addHs m)).2.2 := by
  simp [generate_3d_sdf, h]

theorem writeStage_ok (env : ChemEnv) (fs : SDFStore) (name output_path : String)
    (mol : Mol) (log : List String) (embeds : List ETKDGParams)
    (hw : env.writeFails output_path = false) :
    writeStage env fs name output_path mol log embeds =
      { ret := .ok true, fs := fs.set output_path [mol.setProp "_Name" name],
        log := log, embeds := embeds } := by
  simp [writeStage, hw]

theorem gen_write_ok (env : ChemEnv) (rand : Nat) (fs : SDFStore)
    (smiles name output_path : String) (m : Mol)
    (h : env.molFromSmiles smiles = some m)
    (hw : env.writeFails output_path = false) :
    (generate_3d_sdf env rand fs smiles name output_path).ret = .ok true
    ∧ (generate_3d_sdf env rand fs smiles name output_path).fs
        = fs.set output_path [writtenMol env rand name m] := by
  rw [gen_parse_some env rand fs smiles name output_path m h,
      writeStage_ok env fs name output_path _ _ _ hw]
  exact ⟨rfl, rfl⟩

theorem gen_no_raise (env : ChemEnv) (rand : Nat) (fs : SDFStore)
    (smiles name output_path : String)
    (hw : env.writeFails output_path = false) :
    ∀ e, (generate_3d_sdf env rand fs smiles name output_path).ret ≠ .error e := by
  intro e
  cases h : env.molFromSmiles smiles with
  | none => rw [gen_parse_none env rand fs smiles name output_path h]; simp
  | some m =>
      rw [gen_parse_some env rand fs smiles name output_path m h,
          writeStage_ok env fs name output_path _ _ _ hw]
      simp

theorem gen_fs_other (env : ChemEnv) (rand : Nat) (fs : SDFStore)
    (smiles name output_path q : String) (hq : q ≠ output_path) :
    ((generate_3d_sdf env rand fs smiles name output_path).fs).get q = fs.get q := by
  cases h : env.molFromSmiles smiles with
  | none => rw [gen_parse_none env rand fs smiles name output_path h]
  | some m =>
      rw [gen_parse_some env rand fs smiles name output_path m h]
      unfold writeStage
      cases hw : env.writeFails output_path with
      | false => simp [hw, Store.get_set_ne _ _ _ _ hq]
      | true => simp [hw]

theorem processLigand_aborted (env : ChemEnv) (rand : Nat) (st : LigState)
    (entry : String × LigandInfo) (e : String) (h : st.ret = some e) :
    processLigand env rand st entry = st := by
  unfold processLigand
  rw [h]

theorem processLigand_attempts (env : ChemEnv) (rand : Nat) (st : LigState)
    (entry : String × LigandInfo) (h : st.ret = none) :
    (processLigand env rand st entry).attempts = st.attempts ++ [entry.1] := by
  simp only [processLigand, h]
  split <;> rfl

theorem processLigand_no_abort (env : ChemEnv) (rand : Nat) (st : LigState)
    (entry : String × LigandInfo) (h : st.ret = none)
    (hw : env.writeFails (entry.1 ++ ".sdf") = false) :
    (processLigand env rand st entry).ret = none := by
  have hnr := gen_no_raise env rand st.fs entry.2.smiles entry.1 (entry.1 ++ ".sdf") hw
  simp only [processLigand, h]
  split <;> simp_all

theorem processLigand_fs_other (env : ChemEnv) (rand : Nat) (st : LigState)
    (entry : String × LigandInfo) (q : String) (hq : q ≠ entry.1 ++ ".sdf") :
    ((processLigand env rand st entry).fs).get q = (st.fs).get q := by
  cases h : st.ret with
  | some e => simp [processLigand, h]
  | none =>
      have hfs := gen_fs_other env rand st.fs entry.2.smiles entry.1 (entry.1 ++ ".sdf") q hq
      simp only [processLigand, h]
      split <;> simp_all

theorem processLigand_writes (env : ChemEnv) (rand : Nat) (st : LigState)
    (entry : String × LigandInfo) (m : Mol) (h : st.ret = none)
    (hp : env.molFromSmiles entry.2.smiles = some m)
    (hw : env.writeFails (entry.1 ++ ".sdf") = false) :
    ((processLigand env rand st entry).fs).get (entry.1 ++ ".sdf")
      = some [writtenMol env rand entry.1 m] := by
  have hg1 := (gen_write_ok env rand st.fs entry.2.smiles entry.1 (entry.1 ++ ".sdf") m hp hw).1
  have hg2 := (gen_write_ok env rand st.fs entry.2.smiles entry.1 (entry.1 ++ ".sdf") m hp hw).2
  simp only [processLigand, h]
  split <;> simp_all [Store.get_set_self]

/-! ## Helper lemmas: receptor side -/

theorem clean_no_raise (env : BioEnv) (fs : RStore) (inp out cid : String)
    (hs : env.saveFails out = false) :
    ∀ e, (clean_pdb env fs inp out cid).ret ≠ .error e := by
  intro e
  unfold clean_pdb
  cases hin : fs.get inp with
  | none => simp
  | some f =>
      cases hp : env.parsePDB f with
      | error e2 => simp [hp]
      | ok stp => simp [hp, hs]

theorem clean_fs_isSome (env : BioEnv) (fs : RStore) (inp out cid q : String)
    (h : (fs.get q).isSome = true) :
    (((clean_pdb env fs inp out cid).fs).get q).isSome = true := by
  unfold clean_pdb
  cases hin : fs.get inp with
  | none => simpa using h
  | some f =>
      cases hp : env.parsePDB f with
      | error e => simpa [hp] using h
      | ok stp =>
          cases hsf : env.saveFails out with
          | true => simpa [hp, hsf] using h
          | false =>
              have hm := Store.get_set_isSome fs out q
                (RFile.struct (pdbioSave stp { chain_id := cid })) h
              simpa [hp, hsf] using hm

theorem doClean_ret (env : BioEnv) (st : RecState) (name : String) (info : ReceptorInfo)
    (hs : env.saveFails (cleanPath name) = false) :
    (doClean env st name info).ret = st.ret := by
  have hnr := clean_no_raise env st.fs (rawPath info.pdb_id) (cleanPath name) info.chain hs
  simp only [doClean]
  split <;> simp_all

theorem doClean_fetches (env : BioEnv) (st : RecState) (name : String) (info : ReceptorInfo) :
    (doClean env st name info).fetches = st.fetches := by
  simp only [doClean]
  split <;> rfl

theorem doClean_attempts (env : BioEnv) (st : RecState) (name : String) (info : ReceptorInfo) :
    (doClean env st name info).attempts = st.attempts := by
  simp only [doClean]
  split <;> rfl

theorem doClean_cleans (env : BioEnv) (st : RecState) (name : String) (info : ReceptorInfo) :
    (doClean env st name info).cleans
      = st.cleans ++ [(rawPath info.pdb_id, cleanPath name, info.chain)] := by
  simp only [doClean]
  split <;> rfl

theorem doClean_fs_isSome (env : BioEnv) (st : RecState) (name : String)
    (info : ReceptorInfo) (q : String) (h : ((st.fs).get q).isSome = true) :
    (((doClean env st name info).fs).get q).isSome = true := by
  have hc := clean_fs_isSome env st.fs (rawPath info.pdb_id) (cleanPath name) info.chain q h
  simp only [doClean]
  split <;> simp_all

theorem processReceptor_aborted (env : BioEnv) (st : RecState)
    (entry : String × ReceptorInfo) (e : String) (h : st.ret = some e) :
    processReceptor env st entry = st := by
  simp [processReceptor, h]

theorem processReceptor_attempts (env : BioEnv) (st : RecState)
    (entry : String × ReceptorInfo) (h : st.ret = none) :
    (processReceptor env st entry).attempts = st.attempts ++ [entry.1] := by
  simp only [processReceptor, h]
  split
  · split
    · rw [doClean_attempts]
    · rfl
  · rw [doClean_attempts]

theorem processReceptor_no_abort (env : BioEnv) (st : RecState)
    (entry : String × ReceptorInfo) (h : st.ret = none)
    (hs : ∀ p, env.saveFails p = false) :
    (processReceptor env st entry).ret = none := by
  simp only [processReceptor, h]
  split
  · split
    · rw [doClean_ret _ _ _ _ (hs (cleanPath entry.1))]
    · rfl
  · rw [doClean_ret _ _ _ _ (hs (cleanPath entry.1))]

theorem processReceptor_fs_isSome (env : BioEnv) (st : RecState)
    (entry : String × ReceptorInfo) (q : String)
    (h : ((st.fs).get q).isSome = true) :
    (((processReceptor env st entry).fs).get q).isSome = true := by
  cases hret : st.ret with
  | some e => rw [processReceptor_aborted env st entry e hret]; exact h
  | none =>
      simp only [processReceptor, hret]
      split
      · simp only [download_pdb]
        cases hd : env.download entry.2.pdb_id with
        | some content =>
            simp only []
            split
            · exact doClean_fs_isSome _ _ _ _ _
                (Store.get_set_isSome st.fs (rawPath entry.2.pdb_id) q _ h)
            · exact Store.get_set_isSome st.fs (rawPath entry.2.pdb_id) q _ h
        | none =>
            simp only []
            split
            · exact doClean_fs_isSome _ _ _ _ _ h
            · exact h
      · exact doClean_fs_isSome _ _ _ _ _ h

theorem processReceptor_fetches_sub (env : BioEnv) (st : RecState)
    (entry : String × ReceptorInfo) (x : String)
    (h : x ∈ (processReceptor env st entry).fetches) :
    x ∈ st.fetches ∨ x = entry.2.pdb_id := by
  cases hret : st.ret with
  | some e => rw [processReceptor_aborted env st entry e hret] at h; exact Or.inl h
  | none =>
      simp only [processReceptor, hret] at h
      revert h
      split
      · split
        · rw [doClean_fetches]
          intro h
          rcases List.mem_append.mp h with h1 | h1
          · exact Or.inl h1
          · exact Or.inr (List.mem_singleton.mp h1)
        · intro h
          rcases List.mem_append.mp h with h1 | h1
          · exact Or.inl h1
          · exact Or.inr (List.mem_singleton.mp h1)
      · rw [doClean_fetches]
        exact fun h => Or.inl h

theorem processReceptor_fetches_present (env : BioEnv) (st : RecState)
    (entry : String × ReceptorInfo)
    (hpres : ((st.fs).get (rawPath entry.2.pdb_id)).isSome = true) :
    (processReceptor env st entry).fetches = st.fetches := by
  cases hret : st.ret with
  | some e => rw [processReceptor_aborted env st entry e hret]
  | none =>
      have hnone : ((st.fs).get (rawPath entry.2.pdb_id)).isNone = false := by
        rw [Option.isNone_eq_false_iff, Option.isSome_iff_exists] at *
        exact hpres
      simp only [processReceptor, hret, hnone]
      rw [if_neg (by simp [hnone])]
      rw [doClean_fetches]

theorem processReceptor_cleans_mono (env : BioEnv) (st : RecState)
    (entry : String × ReceptorInfo) (x : String × String × String)
    (h : x ∈ st.cleans) : x ∈ (processReceptor env st entry).cleans := by
  cases hret : st.ret with
  | some e => rw [processReceptor_aborted env st entry e hret]; exact h
  | none =>
      simp only [processReceptor, hret]
      split
      · split
        · rw [doClean_cleans]
          exact List.mem_append.mpr (Or.inl h)
        · exact h
      · rw [doClean_cleans]
        exact List.mem_append.mpr (Or.inl h)

theorem processReceptor_clean_attempted (env : BioEnv) (st : RecState)
    (entry : String × ReceptorInfo) (h : st.ret = none)
    (hpres : ((st.fs).get (rawPath entry.2.pdb_id)).isSome = true) :
    (rawPath entry.2.pdb_id, cleanPath entry.1, entry.2.chain)
      ∈ (processReceptor env st entry).cleans := by
  have hnone : ((st.fs).get (rawPath entry.2.pdb_id)).isNone = false := by
    rw [Option.isNone_eq_false_iff, Option.isSome_iff_exists] at *
    exact hpres
  simp only [processReceptor, h]
  rw [if_neg (by simp [hnone])]
  rw [doClean_cleans]
  exact List.mem_append.mpr (Or.inr (List.mem_singleton.mpr rfl))

/-! ## Whole-loop lemmas -/

theorem foldl_ligand_no_abort (env : ChemEnv) (rand : Nat)
    (hw : ∀ p, env.writeFails p = false) :
    ∀ (l : List (String × LigandInfo)) (st : LigState), st.ret = none →
      (List.foldl (processLigand env rand) st l).ret = none := by
  intro l
  induction l with
  | nil => intro st h; exact h
  | cons e t ih =>
      intro st h
      exact ih _ (processLigand_no_abort env rand st e h (hw _))

theorem foldl_ligand_attempts (env : ChemEnv) (rand : Nat)
    (hw : ∀ p, env.writeFails p = false) :
    ∀ (l : List (String × LigandInfo)) (st : LigState), st.ret = none →
      (List.foldl (processLigand env rand) st l).attempts
        = st.attempts ++ l.map (fun e => e.1) := by
  intro l
  induction l with
  | nil => intro st h; simp
  | cons e t ih =>
      intro st h
      simp only [List.foldl_cons, List.map_cons]
      rw [ih _ (processLigand_no_abort env rand st e h (hw _))]
      rw [processLigand_attempts env rand st e h]
      simp

theorem ligandMain_attempts (env : ChemEnv) (rand : Nat) (fs : SDFStore)
    (hw : ∀ p, env.writeFails p = false) :
    (ligandMain env rand fs).attempts = ["biotin", "serotonin"] := by
  unfold ligandMain
  rw [foldl_ligand_attempts env rand hw LIGANDS (initLigState fs) rfl]
  rfl

theorem ligandMain_no_abort (env : ChemEnv) (rand : Nat) (fs : SDFStore)
    (hw : ∀ p, env.writeFails p = false) :
    (ligandMain env rand fs).ret = none := by
  unfold ligandMain
  exact foldl_ligand_no_abort env rand hw LIGANDS (initLigState fs) rfl

theorem foldl_receptor_no_abort (env : BioEnv) (hs : ∀ p, env.saveFails p = false) :
    ∀ (l : List (String × ReceptorInfo)) (st : RecState), st.ret = none →
      (List.foldl (processReceptor env) st l).ret = none := by
  intro l
  induction l with
  | nil => intro st h; exact h
  | cons e t ih =>
      intro st h
      exact ih _ (processReceptor_no_abort env st e h hs)

theorem foldl_receptor_attempts (env : BioEnv) (hs : ∀ p, env.saveFails p = false) :
    ∀ (l : List (String × ReceptorInfo)) (st : RecState), st.ret = none →
      (List.foldl (processReceptor env) st l).attempts
        = st.attempts ++ l.map (fun e => e.1) := by
  intro l
  induction l with
  | nil => intro st h; simp
  | cons e t ih =>
      intro st h
      simp only [List.foldl_cons, List.map_cons]
      rw [ih _ (processReceptor_no_abort env st e h hs)]
      rw [processReceptor_attempts env st e h]
      simp

theorem receptorMain_attempts (env : BioEnv) (fs : RStore)
    (hs : ∀ p, env.saveFails p = false) :
    (receptorMain env fs).attempts
      = ["serotonin_5HT1A", "serotonin_5HT2A", "serotonin_5HT2B"] := by
  unfold receptorMain
  rw [foldl_receptor_attempts env hs RECEPTORS (initRecState fs) rfl]
  rfl

theorem receptorMain_no_abort (env : BioEnv) (fs : RStore)
    (hs : ∀ p, env.saveFails p = false) :
    (receptorMain env fs).ret = none := by
  unfold receptorMain
  exact foldl_receptor_no_abort env hs RECEPTORS (initRecState fs) rfl

theorem foldl_receptor_fs_isSome (env : BioEnv) :
    ∀ (l : List (String × ReceptorInfo)) (st : RecState) (q : String),
      ((st.fs).get q).isSome = true →
      (((List.foldl (processReceptor env) st l).fs).get q).isSome = true := by
  intro l
  induction l with
  | nil => intro st q h; exact h
  | cons e t ih =>
      intro st q h
      exact ih _ _ (processReceptor_fs_isSome env st e q h)

theorem foldl_receptor_cleans_mono (env : BioEnv) :
    ∀ (l : List (String × ReceptorInfo)) (st : RecState) (x : String × String × String),
      x ∈ st.cleans → x ∈ (List.foldl (processReceptor env) st l).cleans := by
  intro l
  induction l with
  | nil => intro st x h; exact h
  | cons e t ih =>
      intro st x h
      exact ih _ _ (processReceptor_cleans_mono env st e x h)

theorem foldl_receptor_nofetch (env : BioEnv) :
    ∀ (l : List (String × ReceptorInfo)) (st : RecState) (id : String),
      id ∉ st.fetches →
      ((st.fs).get (rawPath id)).isSome = true →
      id ∉ (List.foldl (processReceptor env) st l).fetches := by
  intro l
  induction l with
  | nil => intro st id hid _; exact hid
  | cons e t ih =>
      intro st id hid hpres
      apply ih
      · by_cases hp : e.2.pdb_id = id
        · rw [processReceptor_fetches_present env st e (by rw [hp]; exact hpres)]
          exact hid
        · intro hmem
          rcases processReceptor_fetches_sub env st e id hmem with h1 | h1
          · exact hid h1
          · exact hp h1.symm
      · exact processReceptor_fs_isSome env st e _ hpres

theorem foldl_receptor_clean_attempted (env : BioEnv)
    (hs : ∀ p, env.saveFails p = false) :
    ∀ (l : List (String × ReceptorInfo)) (st : RecState) (name : String)
      (info : ReceptorInfo),
      st.ret = none → (name, info) ∈ l →
      ((st.fs).get (rawPath info.pdb_id)).isSome = true →
      (rawPath info.pdb_id, cleanPath name, info.chain)
        ∈ (List.foldl (processReceptor env) st l).cleans := by
  intro l
  induction l with
  | nil => intro st name info _ hmem _; cases hmem
  | cons e t ih =>
      intro st name info hret hmem hpres
      rcases List.mem_cons.mp hmem with heq | hmem2
      · subst heq
        have h1 := processReceptor_clean_attempted env st (name, info) hret hpres
        exact foldl_receptor_cleans_mono env t (processReceptor env st (name, info)) _ h1
      · exact ih (processReceptor env st e) name info
          (processReceptor_no_abort env st e hret hs) hmem2
          (processReceptor_fs_isSome env st e _ hpres)

/-! ## Chain filtering property -/

theorem pdbioSave_all (st : PDBStructure) (sel : ChainSelect) :
    ((pdbioSave st sel).chains.all (fun c => c.id == sel.chain_id
        && c.residues.all (fun r => r.hetfield == " "))) = true := by
  simp only [pdbioSave, List.all_eq_true, List.mem_map]
  rintro c ⟨c0, hc0, rfl⟩
  rcases List.mem_filter.mp hc0 with ⟨hmem, hacc⟩
  simp only [ChainSelect.accept_chain] at hacc
  simp only [Bool.and_eq_true]
  refine ⟨hacc, ?_⟩
  rw [List.all_eq_true]
  intro r hr
  have hres := (List.mem_filter.mp hr).2
  simpa [ChainSelect.accept_residue] using hres

/-! ## Claims -/

/-- Claim C1: for every receptor record and chain letter, the cleaned
output written by `clean_pdb` contains only atoms of residues that belong
to the selected chain and whose hetfield marks them as standard residues;
every water or heteroatom residue and every residue of another chain is
excluded. -/
theorem C1_clean_output_single_chain_standard_only (env : BioEnv) (fs : RStore)
    (input_path output_path chain_id : String) (stOut : PDBStructure)
    (hret : (clean_pdb env fs input_path output_path chain_id).ret = .ok true)
    (hout : ((clean_pdb env fs input_path output_path chain_id).fs).get output_path
        = some (.struct stOut)) :
    (stOut.chains.all (fun c => c.id == chain_id
        && c.residues.all (fun r => r.hetfield == " "))) = true := by
  cases hin : fs.get input_path with
  | none =>
      rw [clean_pdb] at hret
      simp [hin] at hret
  | some f =>
      cases hp : env.parsePDB f with
      | error e =>
          rw [clean_pdb] at hret
          simp [hin, hp] at hret
      | ok stp =>
          cases hsf : env.saveFails output_path with
          | true =>
              rw [clean_pdb] at hret
              simp [hin, hp, hsf] at hret
          | false =>
              rw [clean_pdb] at hout
              simp only [hin, hp, hsf, Bool.false_eq_true, if_false] at hout
              rw [Store.get_set_self] at hout
              simp only [Option.some.injEq, RFile.struct.injEq] at hout
              rw [← hout]
              exact pdbioSave_all stp { chain_id := chain_id }

/-- Witness for C1: cleaning a concrete structure holding waters,
heteroatoms and a second chain with chain id A. -/
theorem C1_clean_output_single_chain_standard_only_witness :
    ((pdbioSave stSample { chain_id := "A" }).chains.all (fun c => c.id == "A"
        && c.residues.all (fun r => r.hetfield == " "))) = true :=
  C1_clean_output_single_chain_standard_only envBioOk fsSample (rawPath "7E2X")
    (cleanPath "serotonin_5HT1A") "A" (pdbioSave stSample { chain_id := "A" })
    rfl rfl

/-- Claim C2: an input SMILES string that fails to parse makes
`generate_3d_sdf` return `False` with an error printed, no output file
written and no exception raised past the per-item boundary; the main loop
still attempts every ligand table entry. -/
theorem C2_invalid_smiles_soft_failure (env : ChemEnv) (rand : Nat) (fs : SDFStore)
    (smiles name output_path : String)
    (hparse : env.molFromSmiles smiles = none)
    (hw : ∀ p, env.writeFails p = false) :
    generate_3d_sdf env rand fs smiles name output_path =
      { ret := .ok false, fs := fs,
        log := ["  Error: Invalid SMILES for " ++ name], embeds := [] }
    ∧ (ligandMain env rand fs).attempts = ["biotin", "serotonin"] :=
  ⟨gen_parse_none env rand fs smiles name output_path hparse,
   ligandMain_attempts env rand fs hw⟩

/-- Witness for C2 in an environment where every SMILES fails to parse. -/
theorem C2_invalid_smiles_soft_failure_witness :
    generate_3d_sdf envParseFail 0 ([] : SDFStore) "xyz" "biotin" "biotin.sdf" =
      { ret := .ok false, fs := ([] : SDFStore),
        log := ["  Error: Invalid SMILES for " ++ "biotin"], embeds := [] }
    ∧ (ligandMain envParseFail 0 ([] : SDFStore)).attempts = ["biotin", "serotonin"] :=
  C2_invalid_smiles_soft_failure envParseFail 0 ([] : SDFStore) "xyz" "biotin"
    "biotin.sdf" rfl (fun _ => rfl)

/-- Counterexample for claim C3: a failure of the final SDF write is not
caught; the exception escapes `generate_3d_sdf`, aborts the ligand loop
after biotin, and serotonin is never attempted, contradicting the claim
that every per-record failure (including write failure) is caught and
every remaining table entry is still attempted. -/
theorem C3_counterexample_write_failure_aborts :
    (ligandMain envWriteFail 0 ([] : SDFStore)).attempts = ["biotin"]
    ∧ (ligandMain envWriteFail 0 ([] : SDFStore)).ret
        = some ("write failure: " ++ "biotin.sdf") := by
  constructor <;> rfl

/-- Claim C3 (amended): download failures, SMILES-parse failures, PDB-parse
failures and geometry failures are caught and logged locally, and under
those failures both scripts still attempt every table entry; only a failure
of the final file write — which neither script catches — can abort a loop.
With writes succeeding, both loops attempt every entry and finish without
an escaped exception, whatever the download/parse/geometry behaviour. -/
theorem C3_amended_loops_complete (cenv : ChemEnv) (benv : BioEnv) (rand : Nat)
    (fs1 : SDFStore) (fs2 : RStore)
    (hw : ∀ p, cenv.writeFails p = false)
    (hs : ∀ p, benv.saveFails p = false) :
    (ligandMain cenv rand fs1).attempts = ["biotin", "serotonin"]
    ∧ (ligandMain cenv rand fs1).ret = none
    ∧ (receptorMain benv fs2).attempts
        = ["serotonin_5HT1A", "serotonin_5HT2A", "serotonin_5HT2B"]
    ∧ (receptorMain benv fs2).ret = none :=
  ⟨ligandMain_attempts cenv rand fs1 hw, ligandMain_no_abort cenv rand fs1 hw,
   receptorMain_attempts benv fs2 hs, receptorMain_no_abort benv fs2 hs⟩

/-- Witness for the amended C3: every SMILES parse fails and every download
fails, yet both loops attempt all their entries and finish. -/
theorem C3_amended_loops_complete_witness :
    (ligandMain envParseFail 0 ([] : SDFStore)).attempts = ["biotin", "serotonin"]
    ∧ (ligandMain envParseFail 0 ([] : SDFStore)).ret = none
    ∧ (receptorMain envBioNoDl ([] : RStore)).attempts
        = ["serotonin_5HT1A", "serotonin_5HT2A", "serotonin_5HT2B"]
    ∧ (receptorMain envBioNoDl ([] : RStore)).ret = none :=
  C3_amended_loops_complete envParseFail envBioNoDl 0 ([] : SDFStore) ([] : RStore)
    (fun _ => rfl) (fun _ => rfl)

/-- Claim C4: for every receptor record whose raw structure file already
exists at `pdb_raw/<pdb_id>.pdb`, a run of the receptor script never issues
a network fetch for that identifier and proceeds to the cleaning step with
the cached file as input. -/
theorem C4_cached_raw_file_never_refetched (env : BioEnv) (fs : RStore)
    (name : String) (info : ReceptorInfo)
    (hmem : (name, info) ∈ RECEPTORS)
    (hs : ∀ p, env.saveFails p = false)
    (hraw : ((fs.get (rawPath info.pdb_id))).isSome = true) :
    info.pdb_id ∉ (receptorMain env fs).fetches
    ∧ (rawPath info.pdb_id, cleanPath name, info.chain)
        ∈ (receptorMain env fs).cleans := by
  unfold receptorMain
  constructor
  · exact foldl_receptor_nofetch env RECEPTORS (initRecState fs) info.pdb_id
      (List.not_mem_nil _) hraw
  · exact foldl_receptor_clean_attempted env hs RECEPTORS (initRecState fs)
      name info rfl hmem hraw

/-- Witness for C4: 7E2X is cached, so the run issues no fetch for it and
cleans it from the cache. -/
theorem C4_cached_raw_file_never_refetched_witness :
    rec5HT1A.pdb_id ∉ (receptorMain envBioOk fsSample).fetches
    ∧ (rawPath rec5HT1A.pdb_id, cleanPath "serotonin_5HT1A", rec5HT1A.chain)
        ∈ (receptorMain envBioOk fsSample).cleans :=
  C4_cached_raw_file_never_refetched envBioOk fsSample "serotonin_5HT1A" rec5HT1A
    (by decide) (fun _ => rfl) (by decide)

/-- Claim C5: for a receptor record whose download fails (and whose raw
file is absent), the iteration changes no file at all — so no raw and no
cleaned file appear for that entry and every previously produced file is
untouched — the cleaning step is skipped, and the loop continues to the
next entry; the only trace is the attempted fetch and the printed error. -/
theorem C5_download_failure_skips_entry (env : BioEnv) (st : RecState)
    (name : String) (info : ReceptorInfo)
    (hret : st.ret = none)
    (hdl : env.download info.pdb_id = none)
    (habs : ((st.fs).get (rawPath info.pdb_id)).isNone = true) :
    (processReceptor env st (name, info)).fs = st.fs
    ∧ (processReceptor env st (name, info)).cleans = st.cleans
    ∧ (processReceptor env st (name, info)).ret = none
    ∧ (processReceptor env st (name, info)).fetches = st.fetches ++ [info.pdb_id]
    ∧ (processReceptor env st (name, info)).log
        = st.log ++ ["  Downloading " ++ info.pdb_id ++ "..."]
          ++ ["  Error downloading " ++ info.pdb_id] := by
  simp only [processReceptor, hret]
  rw [if_pos habs]
  simp [download_pdb, hdl]

/-- Witness for C5: the 5-HT1A download fails on an empty filesystem. -/
theorem C5_download_failure_skips_entry_witness :
    (processReceptor envBioNoDl (initRecState ([] : RStore))
        ("serotonin_5HT1A", rec5HT1A)).fs = (initRecState ([] : RStore)).fs
    ∧ (processReceptor envBioNoDl (initRecState ([] : RStore))
        ("serotonin_5HT1A", rec5HT1A)).cleans = (initRecState ([] : RStore)).cleans
    ∧ (processReceptor envBioNoDl (initRecState ([] : RStore))
        ("serotonin_5HT1A", rec5HT1A)).ret = none
    ∧ (processReceptor envBioNoDl (initRecState ([] : RStore))
        ("serotonin_5HT1A", rec5HT1A)).fetches
        = (initRecState ([] : RStore)).fetches ++ [rec5HT1A.pdb_id]
    ∧ (processReceptor envBioNoDl (initRecState ([] : RStore))
        ("serotonin_5HT1A", rec5HT1A)).log
        = (initRecState ([] : RStore)).log
          ++ ["  Downloading " ++ rec5HT1A.pdb_id ++ "..."]
          ++ ["  Error downloading " ++ rec5HT1A.pdb_id] :=
  C5_download_failure_skips_entry envBioNoDl (initRecState ([] : RStore))
    "serotonin_5HT1A" rec5HT1A rfl rfl rfl

theorem writeStage_embeds (env : ChemEnv) (fs : SDFStore) (name output_path : String)
    (mol : Mol) (log : List String) (embeds : List ETKDGParams) :
    (writeStage env fs name output_path mol log embeds).embeds = embeds := by
  simp only [writeStage]
  split <;> rfl

/-- Claim C6: when the first (seed-42) embedding attempt returns -1,
`generate_3d_sdf` performs exactly one further embedding attempt, with
default parameters; it discards that attempt's return code (the result is
unchanged under any change of that code), surfaces no error beyond the one
warning even if the fallback also fails, and proceeds to optimization and
file writing with whatever molecule the fallback produced. -/
theorem C6_embedding_fallback_once_defaults (env env2 : ChemEnv) (rand : Nat)
    (fs : SDFStore) (smiles name output_path : String) (m : Mol)
    (hp : env.molFromSmiles smiles = some m)
    (h1 : (env.embedMolecule (env.addHs m) params42 rand).1 = -1)
    (hp2 : env2.molFromSmiles smiles = some m)
    (hH : env2.addHs m = env.addHs m)
    (hE1 : env2.embedMolecule (env.addHs m) params42 rand
        = env.embedMolecule (env.addHs m) params42 rand)
    (hE2 : (env2.embedMolecule (env.embedMolecule (env.addHs m) params42 rand).2
          ETKDGv3 rand).2
        = (env.embedMolecule (env.embedMolecule (env.addHs m) params42 rand).2
          ETKDGv3 rand).2)
    (hO : ∀ mm, env2.mmffOptimize mm = env.mmffOptimize mm)
    (hW : ∀ p, env2.writeFails p = env.writeFails p) :
    (generate_3d_sdf env rand fs smiles name output_path).embeds
        = [params42, ETKDGv3]
    ∧ generate_3d_sdf env rand fs smiles name output_path
        = writeStage env fs name output_path
            (optStage env name
              (env.embedMolecule (env.embedMolecule (env.addHs m) params42 rand).2
                ETKDGv3 rand).2).1
            (["  Warning: Could not embed " ++ name ++ ", trying with random coords"]
              ++ (optStage env name
                  (env.embedMolecule (env.embedMolecule (env.addHs m) params42 rand).2
                    ETKDGv3 rand).2).2)
            [params42, ETKDGv3]
    ∧ generate_3d_sdf env2 rand fs smiles name output_path
        = generate_3d_sdf env rand fs smiles name output_path := by
  have hes : embedStage env rand name (env.addHs m)
      = ((env.embedMolecule (env.embedMolecule (env.addHs m) params42 rand).2
            ETKDGv3 rand).2,
         ["  Warning: Could not embed " ++ name ++ ", trying with random coords"],
         [params42, ETKDGv3]) := by
    simp [embedStage, h1]
  have hes2 : embedStage env2 rand name (env2.addHs m)
      = embedStage env rand name (env.addHs m) := by
    rw [hH]
    simp [embedStage, hE1, h1, hE2]
  have hOpt : ∀ nm mm, optStage env2 nm mm = optStage env nm mm := by
    intro nm mm
    simp [optStage, hO]
  have hWr : ∀ (fs2 : SDFStore) nm op mol lg em,
      writeStage env2 fs2 nm op mol lg em = writeStage env fs2 nm op mol lg em := by
    intro fs2 nm op mol lg em
    simp [writeStage, hW]
  refine ⟨?_, ?_, ?_⟩
  · rw [gen_parse_some env rand fs smiles name output_path m hp, hes]
    exact writeStage_embeds env fs name output_path _ _ _
  · rw [gen_parse_some env rand fs smiles name output_path m hp, hes]
  · rw [gen_parse_some env2 rand fs smiles name output_path m hp2,
        gen_parse_some env rand fs smiles name output_path m hp,
        hes2, hOpt, hWr]

/-- Witness for C6: an environment in which the seeded attempt fails and
the fallback succeeds. -/
theorem C6_embedding_fallback_once_defaults_witness :
    (generate_3d_sdf envEmbedFallback 5 ([] : SDFStore)
        "NCCc1c[nH]c2ccc(O)cc12" "serotonin" "serotonin.sdf").embeds
        = [params42, ETKDGv3]
    ∧ generate_3d_sdf envEmbedFallback 5 ([] : SDFStore)
        "NCCc1c[nH]c2ccc(O)cc12" "serotonin" "serotonin.sdf"
        = writeStage envEmbedFallback ([] : SDFStore) "serotonin" "serotonin.sdf"
            (optStage envEmbedFallback "serotonin"
              (envEmbedFallback.embedMolecule
                (envEmbedFallback.embedMolecule
                  (envEmbedFallback.addHs (molOf "NCCc1c[nH]c2ccc(O)cc12"))
                  params42 5).2
                ETKDGv3 5).2).1
            (["  Warning: Could not embed " ++ "serotonin" ++ ", trying with random coords"]
              ++ (optStage envEmbedFallback "serotonin"
                  (envEmbedFallback.embedMolecule
                    (envEmbedFallback.embedMolecule
                      (envEmbedFallback.addHs (molOf "NCCc1c[nH]c2ccc(O)cc12"))
                      params42 5).2
                    ETKDGv3 5).2).2)
            [params42, ETKDGv3]
    ∧ generate_3d_sdf envEmbedFallback 5 ([] : SDFStore)
        "NCCc1c[nH]c2ccc(O)cc12" "serotonin" "serotonin.sdf"
        = generate_3d_sdf envEmbedFallback 5 ([] : SDFStore)
        "NCCc1c[nH]c2ccc(O)cc12" "serotonin" "serotonin.sdf" :=
  C6_embedding_fallback_once_defaults envEmbedFallback envEmbedFallback 5
    ([] : SDFStore) "NCCc1c[nH]c2ccc(O)cc12" "serotonin" "serotonin.sdf"
    (molOf "NCCc1c[nH]c2ccc(O)cc12") rfl (by decide) rfl rfl rfl rfl
    (fun _ => rfl) (fun _ => rfl)

/-- Claim C7: if force-field optimization raises, a warning is printed and
the un-optimized conformer, with only its name property set, is written
as-is; the function returns True. -/
theorem C7_optimize_failure_writes_unoptimized (env : ChemEnv) (rand : Nat)
    (fs : SDFStore) (smiles name output_path : String) (m : Mol) (e : String)
    (hp : env.molFromSmiles smiles = some m)
    (hw : env.writeFails output_path = false)
    (hopt : env.mmffOptimize (embedStage env rand name (env.addHs m)).1 = .error e) :
    generate_3d_sdf env rand fs smiles name output_path =
      { ret := .ok true,
        fs := fs.set output_path
          [((embedStage env rand name (env.addHs m)).1).setProp "_Name" name],
        log := (embedStage env rand name (env.addHs m)).2.1
          ++ ["  Warning: MMFF optimization failed for " ++ name],
        embeds := (embedStage env rand name (env.addHs m)).2.2 } := by
  rw [gen_parse_some env rand fs smiles name output_path m hp]
  simp only [optStage, hopt]
  rw [writeStage_ok env fs name output_path _ _ _ hw]

/-- Witness for C7: an environment whose MMFF optimization always raises. -/
theorem C7_optimize_failure_writes_unoptimized_witness :
    generate_3d_sdf envOptFail 0 ([] : SDFStore)
        "NCCc1c[nH]c2ccc(O)cc12" "serotonin" "serotonin.sdf" =
      { ret := .ok true,
        fs := Store.set ([] : SDFStore) "serotonin.sdf"
          [((embedStage envOptFail 0 "serotonin"
              (envOptFail.addHs (molOf "NCCc1c[nH]c2ccc(O)cc12"))).1).setProp
            "_Name" "serotonin"],
        log := (embedStage envOptFail 0 "serotonin"
            (envOptFail.addHs (molOf "NCCc1c[nH]c2ccc(O)cc12"))).2.1
          ++ ["  Warning: MMFF optimization failed for " ++ "serotonin"],
        embeds := (embedStage envOptFail 0 "serotonin"
            (envOptFail.addHs (molOf "NCCc1c[nH]c2ccc(O)cc12"))).2.2 } :=
  C7_optimize_failure_writes_unoptimized envOptFail 0 ([] : SDFStore)
    "NCCc1c[nH]c2ccc(O)cc12" "serotonin" "serotonin.sdf"
    (molOf "NCCc1c[nH]c2ccc(O)cc12") "force field setup failed" rfl rfl rfl

/-- Claim C8: for every record of the static ligand table whose SMILES the
library parses, the run leaves at `<name>.sdf` a file holding exactly one
molecule, and that molecule's `_Name` property equals the table key. -/
theorem C8_table_entry_single_named_molecule (env : ChemEnv) (rand : Nat)
    (fs : SDFStore) (name : String) (info : LigandInfo) (m : Mol)
    (hmem : (name, info) ∈ LIGANDS)
    (hw : ∀ p, env.writeFails p = false)
    (hp : env.molFromSmiles info.smiles = some m) :
    ((ligandMain env rand fs).fs).get (name ++ ".sdf")
        = some [writtenMol env rand name m]
    ∧ (writtenMol env rand name m).getProp "_Name" = some name := by
  constructor
  · simp only [LIGANDS, List.mem_cons, List.not_mem_nil, or_false,
      Prod.mk.injEq] at hmem
    unfold ligandMain
    rw [LIGANDS]
    simp only [List.foldl_cons, List.foldl_nil]
    rcases hmem with ⟨rfl, rfl⟩ | ⟨rfl, rfl⟩
    · rw [processLigand_fs_other env rand _ ("serotonin", serotoninInfo)
          ("biotin" ++ ".sdf") (by decide)]
      exact processLigand_writes env rand (initLigState fs) ("biotin", biotinInfo)
        m rfl hp (hw _)
    · have hret1 : (processLigand env rand (initLigState fs)
          ("biotin", biotinInfo)).ret = none :=
        processLigand_no_abort env rand (initLigState fs) ("biotin", biotinInfo)
          rfl (hw _)
      exact processLigand_writes env rand _ ("serotonin", serotoninInfo)
        m hret1 hp (hw _)
  · unfold writtenMol
    exact Mol.getProp_setProp _ "_Name" name

/-- Witness for C8 at the biotin record in the all-succeeding environment. -/
theorem C8_table_entry_single_named_molecule_witness :
    ((ligandMain envHappy 0 ([] : SDFStore)).fs).get ("biotin" ++ ".sdf")
        = some [writtenMol envHappy 0 "biotin" (molOf biotinInfo.smiles)]
    ∧ (writtenMol envHappy 0 "biotin" (molOf biotinInfo.smiles)).getProp "_Name"
        = some "biotin" :=
  C8_table_entry_single_named_molecule envHappy 0 ([] : SDFStore) "biotin"
    biotinInfo (molOf biotinInfo.smiles) (by decide) (fun _ => rfl) rfl

/-- Counterexample for claim C9: in a seed-deterministic environment where
the seeded first attempt fails, the fallback runs with default parameters
(random seed -1), so two runs of the generator on the same SMILES that
differ only in the ambient random state write files with different
conformer coordinates. -/
theorem C9_counterexample_fallback_not_seeded : ¬ C9claim := by
  intro h
  have hdet : SeedDeterministic envSeedCex := by
    intro m p r r2 hle
    simp [envSeedCex, hle]
  have h2 := h envSeedCex hdet 0 1 ([] : SDFStore) "NCCc1c[nH]c2ccc(O)cc12"
    "serotonin" "serotonin.sdf"
  exact absurd h2 (by decide)

/-- Claim C9 (amended): the first embedding attempt always runs with the
fixed random seed 42, so whenever it succeeds, two runs of the generator
on the same SMILES string that differ only in the ambient random state
produce the same result, conformer coordinates included; if it fails, the
fallback attempt runs with default parameters, whose seed is not fixed,
and determinism is not guaranteed. -/
theorem C9_amended_seeded_path_deterministic (env : ChemEnv)
    (hdet : SeedDeterministic env) (rand rand2 : Nat) (fs : SDFStore)
    (smiles name output_path : String) (m : Mol)
    (hp : env.molFromSmiles smiles = some m)
    (h1 : (env.embedMolecule (env.addHs m) params42 rand).1 ≠ -1) :
    generate_3d_sdf env rand fs smiles name output_path
      = generate_3d_sdf env rand2 fs smiles name output_path
    ∧ params42.randomSeed = 42 := by
  have hEq : env.embedMolecule (env.addHs m) params42 rand
      = env.embedMolecule (env.addHs m) params42 rand2 :=
    hdet (env.addHs m) params42 rand rand2 (by decide)
  constructor
  · rw [gen_parse_some env rand fs smiles name output_path m hp,
        gen_parse_some env rand2 fs smiles name output_path m hp]
    have hes : embedStage env rand name (env.addHs m)
        = embedStage env rand2 name (env.addHs m) := by
      simp only [embedStage, ← hEq]
      rw [if_neg h1, if_neg h1]
    rw [hes]
  · rfl

/-- Witness for the amended C9: the all-succeeding environment ignores the
ambient random state and its first embedding attempt succeeds. -/
theorem C9_amended_seeded_path_deterministic_witness :
    generate_3d_sdf envHappy 0 ([] : SDFStore)
        "NCCc1c[nH]c2ccc(O)cc12" "serotonin" "serotonin.sdf"
      = generate_3d_sdf envHappy 1 ([] : SDFStore)
        "NCCc1c[nH]c2ccc(O)cc12" "serotonin" "serotonin.sdf"
    ∧ params42.randomSeed = 42 :=
  C9_amended_seeded_path_deterministic envHappy (fun _ _ _ _ _ => rfl) 0 1
    ([] : SDFStore) "NCCc1c[nH]c2ccc(O)cc12" "serotonin" "serotonin.sdf"
    (molOf "NCCc1c[nH]c2ccc(O)cc12") rfl (by decide)

/-- Claim C10: `generate_3d_sdf` returns False exactly when SMILES parsing
yields no molecule; whenever parsing succeeds (and the uncaught final write
does not raise) it returns True and the output file exists, whatever the
embedding return codes and the optimization outcome — the boolean reports
parse success only, not geometry success. -/
theorem C10_bool_reports_parse_success_only (env : ChemEnv) (rand : Nat)
    (fs : SDFStore) (smiles name output_path : String)
    (hw : env.writeFails output_path = false) :
    ((generate_3d_sdf env rand fs smiles name output_path).ret = .ok false
        ↔ env.molFromSmiles smiles = none)
    ∧ ((generate_3d_sdf env rand fs smiles name output_path).ret = .ok true
        ↔ (env.molFromSmiles smiles).isSome = true)
    ∧ ((generate_3d_sdf env rand fs smiles name output_path).ret = .ok true →
        (((generate_3d_sdf env rand fs smiles name output_path).fs).get
            output_path).isSome = true) := by
  cases hp : env.molFromSmiles smiles with
  | none =>
      rw [gen_parse_none env rand fs smiles name output_path hp]
      simp
  | some m =>
      have hg := gen_write_ok env rand fs smiles name output_path m hp hw
      refine ⟨?_, ?_, ?_⟩
      · rw [hg.1]
        simp [hp]
      · rw [hg.1]
        simp [hp]
      · intro _
        rw [hg.2, Store.get_set_self]
        rfl

/-- Witness for C10 in the all-succeeding environment. -/
theorem C10_bool_reports_parse_success_only_witness :
    ((generate_3d_sdf envHappy 0 ([] : SDFStore)
        "NCCc1c[nH]c2ccc(O)cc12" "serotonin" "serotonin.sdf").ret = .ok false
        ↔ envHappy.molFromSmiles "NCCc1c[nH]c2ccc(O)cc12" = none)
    ∧ ((generate_3d_sdf envHappy 0 ([] : SDFStore)
        "NCCc1c[nH]c2ccc(O)cc12" "serotonin" "serotonin.sdf").ret = .ok true
        ↔ (envHappy.molFromSmiles "NCCc1c[nH]c2ccc(O)cc12").isSome = true)
    ∧ ((generate_3d_sdf envHappy 0 ([] : SDFStore)
        "NCCc1c[nH]c2ccc(O)cc12" "serotonin" "serotonin.sdf").ret = .ok true →
        (((generate_3d_sdf envHappy 0 ([] : SDFStore)
            "NCCc1c[nH]c2ccc(O)cc12" "serotonin" "serotonin.sdf").fs).get
            "serotonin.sdf").isSome = true) :=
  C10_bool_reports_parse_success_only envHappy 0 ([] : SDFStore)
    "NCCc1c[nH]c2ccc(O)cc12" "serotonin" "serotonin.sdf" rfl
